import Mathlib

/-!
Shallow embedding of the thorlabs_mcls1 driver shim (MCLS1_Api.cpp and
JOST_MCLS1.cpp) with theorems about its wrapper layer and its CLI demo.

The vendor UART library is external to this repository, so it is modelled
as a record of state-passing oracle functions over an abstract device
state.  Each wrapper returns, besides its result, the list of vendor
invocations it performed, so that call counts and the exact argument
strings are visible in the statements.  MSVC runtime behaviour is
modelled as follows: a failed assert and a sprintf_s buffer overflow
abort the call (result none, the default invalid parameter handler
terminates the process), and a sscanf_s matching failure leaves the
output buffer untouched (result none).  C float arguments are modelled
as rationals (every finite float is a rational) and sprintf %f as
correctly rounded six-decimal printing.
-/

/-- MCLS1_Api.cpp line 6: response scratch buffer size. -/
def MAXLEN : Nat := 255

/-- MCLS1_Api.cpp line 7: command buffer size. -/
def WRITE_BUFFER_SIZE : Nat := 32

/-- MCLS1_Api.cpp line 8: TEMP_HI is 30.0f, exactly the rational 30. -/
def TEMP_HI : ℚ := 30

/-- MCLS1_Api.cpp line 9: TEMP_LO is 20.0f, exactly the rational 20. -/
def TEMP_LO : ℚ := 20

/-- Windows baud rate constant CBR_115200 used by fnMCLS1_DLL_Open. -/
def CBR_115200 : Int := 115200

/-- Exactly six decimal digit characters of n, most significant first: the
fractional part printed by a C sprintf %f conversion (n below 10^6). -/
def pad6 (n : Nat) : String :=
  String.mk [Nat.digitChar (n / 100000 % 10), Nat.digitChar (n / 10000 % 10),
    Nat.digitChar (n / 1000 % 10), Nat.digitChar (n / 100 % 10),
    Nat.digitChar (n / 10 % 10), Nat.digitChar (n % 10)]

/-- Round q times 10^6 to the nearest integer, ties to even: the correctly
rounded six-decimal value printed by the C sprintf %f conversion.  Written
on the numerator and denominator of q (the denominator is positive, so
integer division is floor division and the remainder is the fractional
part scaled by the denominator). -/
def rnd6 (q : ℚ) : ℤ :=
  if 2 * (q.num * 1000000 % (q.den : ℤ)) < (q.den : ℤ) then q.num * 1000000 / (q.den : ℤ)
  else if (q.den : ℤ) < 2 * (q.num * 1000000 % (q.den : ℤ)) then
    q.num * 1000000 / (q.den : ℤ) + 1
  else if q.num * 1000000 / (q.den : ℤ) % 2 = 0 then q.num * 1000000 / (q.den : ℤ)
  else q.num * 1000000 / (q.den : ℤ) + 1

/-- Decimal rendering with six fixed decimals of a nonnegative already
rounded value N (in units of 10^-6). -/
def fmtNat6 (N : Nat) : String :=
  toString (N / 1000000) ++ "." ++ pad6 (N % 1000000)

/-- C sprintf %f conversion of the finite value q: the value correctly
rounded to six decimals, with a leading minus sign when negative. -/
def fmtF (q : ℚ) : String :=
  if q < 0 then "-" ++ fmtNat6 (rnd6 (-q)).toNat else fmtNat6 (rnd6 q).toNat

/-- MSVC sprintf_s into a buffer of the given size: succeeds exactly when
the formatted string together with its terminating NUL fits; on overflow
the invalid parameter handler aborts the process (modelled as none). -/
def sprintf_s (size : Nat) (s : String) : Option String :=
  if s.length + 1 ≤ size then some s else none

/-- Whitespace in the C locale, as skipped by a white-space directive in a
scanf format string. -/
def cIsSpace (c : Char) : Bool :=
  c = ' ' || c = '\t' || c = '\n' || c = '\x0b' || c = '\x0c' || c = '\r'

/-- One scanf scanset conversion with a buffer of the given size: reads
the maximal run of characters of the set from the front of s; it fails
(output buffer untouched, modelled as none) when the run is empty or does
not fit the buffer together with its terminating NUL. -/
def scanSet (cls : Char → Bool) (size : Nat) (s : String) : Option String :=
  if s.data.takeWhile cls = [] then none
  else if size ≤ (s.data.takeWhile cls).length then none
  else some (String.mk (s.data.takeWhile cls))

/-- sscanf_s with a format of the shape literal query, then CR, then a
scanset conversion: the literal part must match the front of the reply,
the CR of the format is a white-space directive matching any run of
whitespace, then the scanset conversion runs. -/
def sscanf_query (q : String) (cls : Char → Bool) (size : Nat) (s : String) : Option String :=
  if q.data.isPrefixOf s.data then
    scanSet cls size (String.mk ((s.data.drop q.data.length).dropWhile cIsSpace))
  else none

/-- The scanset of the digit only formats. -/
def digitClass (c : Char) : Bool := c.isDigit

/-- The scanset of the numeric formats: the digits, the apostrophe
(character 39) and the dot. -/
def numClass (c : Char) : Bool := c.isDigit || c = Char.ofNat 39 || c = '.'

/-- The scanset of the GetID format: digits, letters, space and dot. -/
def idClass (c : Char) : Bool := c.isDigit || c.isAlpha || c = ' ' || c = '.'

/-- The scanset of the List format: every character except the comma. -/
def commaFree (c : Char) : Bool := c != ','

/-- One invocation of a vendor library function, with its arguments. -/
inductive VendorCall where
  | openC (port : String) (nBaud : Int) (timeoutVal : Int)
  | listC (size : Nat)
  | closeC (hdl : Int)
  | setC (hdl : Int) (cmd : String) (size : Nat)
  | getC (hdl : Int) (cmd : String)
deriving DecidableEq, Repr

/-- The five vendor functions resolved from the UART DLL, modelled as
state-passing oracles over an abstract device state S.  listFn returns
the string written into the caller buffer and the device count; getFn
returns the reply written into the output buffer and the status code. -/
structure Vendor (S : Type) where
  openFn : S → String → Int → Int → S × Int
  listFn : S → Nat → S × String × Int
  closeFn : S → Int → S × Int
  setFn : S → Int → String → Nat → S × Int
  getFn : S → Int → String → S × String × Int

/-- MCLS1_Api.cpp lines 47 to 54: calls the vendor list function on the
255 byte scratch buffer (the var parameter is unused), then copies the
leading comma-free run into port via sscanf_s with format percent
bracket caret comma bracket. -/
def fnMCLS1_DLL_List {S : Type} (V : Vendor S) (s : S) (var : Int) :
    S × List VendorCall × Option String × Int :=
  ((V.listFn s MAXLEN).1, [VendorCall.listC MAXLEN],
    scanSet commaFree MAXLEN (V.listFn s MAXLEN).2.1,
    (V.listFn s MAXLEN).2.2)

/-- MCLS1_Api.cpp lines 56 to 60: open with baud CBR_115200, timeout 3. -/
def fnMCLS1_DLL_Open {S : Type} (V : Vendor S) (s : S) (port : String) :
    S × List VendorCall × Int :=
  ((V.openFn s port CBR_115200 3).1, [VendorCall.openC port CBR_115200 3],
    (V.openFn s port CBR_115200 3).2)

/-- MCLS1_Api.cpp lines 62 to 67. -/
def fnMCLS1_DLL_Close {S : Type} (V : Vendor S) (s : S) (hdl : Int) :
    S × List VendorCall × Int :=
  ((V.closeFn s hdl).1, [VendorCall.closeC hdl], (V.closeFn s hdl).2)

/-- MCLS1_Api.cpp lines 69 to 77: assert 1 to 4, format channel command,
one vendor set call with the 32 byte buffer size, return its status. -/
def fnMCLS1_DLL_SetActiveChannel {S : Type} (V : Vendor S) (s : S) (hdl n : Int) :
    Option (S × List VendorCall × Int) :=
  if n ≥ 1 ∧ n ≤ 4 then
    match sprintf_s WRITE_BUFFER_SIZE ("channel=" ++ toString n ++ "\r") with
    | some cmd =>
      some ((V.setFn s hdl cmd WRITE_BUFFER_SIZE).1,
        [VendorCall.setC hdl cmd WRITE_BUFFER_SIZE],
        (V.setFn s hdl cmd WRITE_BUFFER_SIZE).2)
    | none => none
  else none

/-- MCLS1_Api.cpp lines 79 to 87: assert TEMP_LO to TEMP_HI, format
target command, one vendor set call, return its status. -/
def fnMCLS1_DLL_SetTargeTemperature {S : Type} (V : Vendor S) (s : S) (hdl : Int) (n : ℚ) :
    Option (S × List VendorCall × Int) :=
  if n ≥ TEMP_LO ∧ n ≤ TEMP_HI then
    match sprintf_s WRITE_BUFFER_SIZE ("target=" ++ fmtF n ++ "\r") with
    | some cmd =>
      some ((V.setFn s hdl cmd WRITE_BUFFER_SIZE).1,
        [VendorCall.setC hdl cmd WRITE_BUFFER_SIZE],
        (V.setFn s hdl cmd WRITE_BUFFER_SIZE).2)
    | none => none
  else none

/-- MCLS1_Api.cpp lines 89 to 96: no assert, format current command, one
vendor set call, return its status. -/
def fnMCLS1_DLL_SetCurrent {S : Type} (V : Vendor S) (s : S) (hdl : Int) (n : ℚ) :
    Option (S × List VendorCall × Int) :=
  match sprintf_s WRITE_BUFFER_SIZE ("current=" ++ fmtF n ++ "\r") with
  | some cmd =>
    some ((V.setFn s hdl cmd WRITE_BUFFER_SIZE).1,
      [VendorCall.setC hdl cmd WRITE_BUFFER_SIZE],
      (V.setFn s hdl cmd WRITE_BUFFER_SIZE).2)
  | none => none

/-- MCLS1_Api.cpp lines 98 to 106: assert 0 or 1, format enable command,
one vendor set call, return its status. -/
def fnMCLS1_DLL_SetEnable {S : Type} (V : Vendor S) (s : S) (hdl n : Int) :
    Option (S × List VendorCall × Int) :=
  if n ≥ 0 ∧ n ≤ 1 then
    match sprintf_s WRITE_BUFFER_SIZE ("enable=" ++ toString n ++ "\r") with
    | some cmd =>
      some ((V.setFn s hdl cmd WRITE_BUFFER_SIZE).1,
        [VendorCall.setC hdl cmd WRITE_BUFFER_SIZE],
        (V.setFn s hdl cmd WRITE_BUFFER_SIZE).2)
    | none => none
  else none

/-- MCLS1_Api.cpp lines 108 to 116: assert 0 or 1, format system command,
one vendor set call, return its status. -/
def fnMCLS1_DLL_SetSystemEnable {S : Type} (V : Vendor S) (s : S) (hdl n : Int) :
    Option (S × List VendorCall × Int) :=
  if n ≥ 0 ∧ n ≤ 1 then
    match sprintf_s WRITE_BUFFER_SIZE ("system=" ++ toString n ++ "\r") with
    | some cmd =>
      some ((V.setFn s hdl cmd WRITE_BUFFER_SIZE).1,
        [VendorCall.setC hdl cmd WRITE_BUFFER_SIZE],
        (V.setFn s hdl cmd WRITE_BUFFER_SIZE).2)
    | none => none
  else none

/-- MCLS1_Api.cpp lines 118 to 126: one vendor get call with the fixed
query, scan the reply, return the vendor status unchanged.  The third
component is the string written into the caller buffer c, none when the
scan fails and c is left untouched.  The limit parameter is unused. -/
def fnMCLS1_DLL_GetActiveChannel {S : Type} (V : Vendor S) (s : S) (hdl : Int) (limit : Int) :
    S × List VendorCall × Option String × Int :=
  ((V.getFn s hdl "channel?\r").1, [VendorCall.getC hdl "channel?\r"],
    sscanf_query "channel?" digitClass MAXLEN (V.getFn s hdl "channel?\r").2.1,
    (V.getFn s hdl "channel?\r").2.2)

/-- MCLS1_Api.cpp lines 128 to 136. -/
def fnMCLS1_DLL_GetTargetTemperature {S : Type} (V : Vendor S) (s : S) (hdl : Int) (limit : Int) :
    S × List VendorCall × Option String × Int :=
  ((V.getFn s hdl "target?\r").1, [VendorCall.getC hdl "target?\r"],
    sscanf_query "target?" numClass MAXLEN (V.getFn s hdl "target?\r").2.1,
    (V.getFn s hdl "target?\r").2.2)

/-- MCLS1_Api.cpp lines 138 to 146. -/
def fnMCLS1_DLL_GetActualTemperature {S : Type} (V : Vendor S) (s : S) (hdl : Int) (limit : Int) :
    S × List VendorCall × Option String × Int :=
  ((V.getFn s hdl "temp?\r").1, [VendorCall.getC hdl "temp?\r"],
    sscanf_query "temp?" numClass MAXLEN (V.getFn s hdl "temp?\r").2.1,
    (V.getFn s hdl "temp?\r").2.2)

/-- MCLS1_Api.cpp lines 148 to 156. -/
def fnMCLS1_DLL_GetActualCurrent {S : Type} (V : Vendor S) (s : S) (hdl : Int) (limit : Int) :
    S × List VendorCall × Option String × Int :=
  ((V.getFn s hdl "current?\r").1, [VendorCall.getC hdl "current?\r"],
    sscanf_query "current?" numClass MAXLEN (V.getFn s hdl "current?\r").2.1,
    (V.getFn s hdl "current?\r").2.2)

/-- MCLS1_Api.cpp lines 158 to 166. -/
def fnMCLS1_DLL_GetActualPower {S : Type} (V : Vendor S) (s : S) (hdl : Int) (limit : Int) :
    S × List VendorCall × Option String × Int :=
  ((V.getFn s hdl "power?\r").1, [VendorCall.getC hdl "power?\r"],
    sscanf_query "power?" numClass MAXLEN (V.getFn s hdl "power?\r").2.1,
    (V.getFn s hdl "power?\r").2.2)

/-- MCLS1_Api.cpp lines 168 to 176. -/
def fnMCLS1_DLL_GetSystemEnable {S : Type} (V : Vendor S) (s : S) (hdl : Int) (limit : Int) :
    S × List VendorCall × Option String × Int :=
  ((V.getFn s hdl "system?\r").1, [VendorCall.getC hdl "system?\r"],
    sscanf_query "system?" digitClass MAXLEN (V.getFn s hdl "system?\r").2.1,
    (V.getFn s hdl "system?\r").2.2)

/-- MCLS1_Api.cpp lines 178 to 186. -/
def fnMCLS1_DLL_GetEnable {S : Type} (V : Vendor S) (s : S) (hdl : Int) (limit : Int) :
    S × List VendorCall × Option String × Int :=
  ((V.getFn s hdl "enable?\r").1, [VendorCall.getC hdl "enable?\r"],
    sscanf_query "enable?" digitClass MAXLEN (V.getFn s hdl "enable?\r").2.1,
    (V.getFn s hdl "enable?\r").2.2)

/-- MCLS1_Api.cpp lines 188 to 196. -/
def fnMCLS1_DLL_GetStatus {S : Type} (V : Vendor S) (s : S) (hdl : Int) (limit : Int) :
    S × List VendorCall × Option String × Int :=
  ((V.getFn s hdl "statword?\r").1, [VendorCall.getC hdl "statword?\r"],
    sscanf_query "statword?" digitClass MAXLEN (V.getFn s hdl "statword?\r").2.1,
    (V.getFn s hdl "statword?\r").2.2)

/-- MCLS1_Api.cpp lines 198 to 206. -/
def fnMCLS1_DLL_GetID {S : Type} (V : Vendor S) (s : S) (hdl : Int) (limit : Int) :
    S × List VendorCall × Option String × Int :=
  ((V.getFn s hdl "id?\r").1, [VendorCall.getC hdl "id?\r"],
    sscanf_query "id?" idClass MAXLEN (V.getFn s hdl "id?\r").2.1,
    (V.getFn s hdl "id?\r").2.2)

/-- Environment for DLL loading: whether LoadLibrary succeeds, and which
exported names GetProcAddress resolves to a non NULL pointer. -/
structure LoadEnv where
  dllLoads : Bool
  getProcAddress : String → Bool

/-- The five exported names resolved by init_MCLS1, in source order. -/
def uartSymbolNames : List String :=
  ["fnUART_LIBRARY_open", "fnUART_LIBRARY_list", "fnUART_LIBRARY_close",
    "fnUART_LIBRARY_Set", "fnUART_LIBRARY_Get"]

/-- MCLS1_Api.cpp lines 26 to 45: load the DLL (return -1 on failure,
resolving nothing), resolve the five symbols, return -2 when any is NULL
and 0 otherwise.  The second component is the list of names passed to
GetProcAddress. -/
def init_MCLS1 (env : LoadEnv) : Int × List String :=
  if env.dllLoads then
    (if uartSymbolNames.all env.getProcAddress then 0 else -2, uartSymbolNames)
  else (-1, [])

/-- JOST_MCLS1.cpp lines 15 to 20: set the active channel (status
discarded), then enable the channel and return the enable status. -/
def SetChannel {S : Type} (V : Vendor S) (s : S) (hdl channel : Int) :
    Option (S × List VendorCall × Int) :=
  match fnMCLS1_DLL_SetActiveChannel V s hdl channel with
  | none => none
  | some (s1, t1, _r1) =>
    match fnMCLS1_DLL_SetEnable V s1 hdl 1 with
    | none => none
    | some (s2, t2, r2) => some (s2, t1 ++ t2, r2)

/-- JOST_MCLS1.cpp lines 22 to 27: set the current, print, set the same
current again and return only the status of the second call. -/
def SetCurrent {S : Type} (V : Vendor S) (s : S) (hdl : Int) (current : ℚ) :
    Option (S × List VendorCall × Int) :=
  match fnMCLS1_DLL_SetCurrent V s hdl current with
  | none => none
  | some (s1, t1, _r1) =>
    match fnMCLS1_DLL_SetCurrent V s1 hdl current with
    | none => none
    | some (s2, t2, r2) => some (s2, t1 ++ t2, r2)

/-- One call of the CLI demo into the MCLS1 API layer, with arguments. -/
inductive ApiEv where
  | listEv
  | openEv (port : String)
  | setActiveChannelEv (channel : Int)
  | setEnableEv (v : Int)
  | setCurrentEv (value : ℚ)
  | closeEv (hdl : Int)
deriving DecidableEq, Repr

/-- How a run of the CLI demo ends. -/
inductive DemoExit where
  | initFailed
  | openFailed
  | finished
  | crashed
  | starved
deriving DecidableEq, Repr

/-- JOST_MCLS1.cpp line 77: the three exit keywords of the input loop. -/
def quitWords : List String := ["quit", "Quit", "QUIT"]

/-- Whether the current command formatted for q fits the 32 byte command
buffer of fnMCLS1_DLL_SetCurrent together with its terminating NUL. -/
def currentCmdFits (q : ℚ) : Bool :=
  decide (("current=" ++ fmtF q ++ "\r").length + 1 ≤ WRITE_BUFFER_SIZE)

/-- Specification predicate for the demo loop: the token stream reaches
one of the exit keywords, every earlier token either being empty (a
failed read keeps the previous current) or parsing under stof to a value
whose current command fits the buffer. -/
def reachesQuit (stofF : String → Option ℚ) : List String → Bool
  | [] => false
  | t :: ts =>
    if t ∈ quitWords then true
    else if t = "" then reachesQuit stofF ts
    else
      match stofF t with
      | none => false
      | some v => if currentCmdFits v then reachesQuit stofF ts else false

/-- JOST_MCLS1.cpp lines 77 to 93: the console loop of _tmain over the
stream of strings produced by the console reads, starting with str as the
current token.  The semantics of std::stof is the oracle stofF, none
standing for a thrown exception (crashed).  When the stream runs out the
real loop keeps resending the last current forever, marked starved.  On a
quit keyword the loop exits and the epilogue disables the channel and
closes the handle. -/
def demoLoop (stofF : String → Option ℚ) (hdl : Int) : ℚ → List String → List ApiEv × DemoExit
  | _current, [] => ([], DemoExit.starved)
  | current, str :: rest =>
    if str ∈ quitWords then
      ([ApiEv.setEnableEv 0, ApiEv.closeEv hdl], DemoExit.finished)
    else
      match (if str = "" then some current else stofF str) with
      | none => ([], DemoExit.crashed)
      | some cur =>
        if currentCmdFits cur then
          (ApiEv.setCurrentEv cur :: ApiEv.setCurrentEv cur ::
            (demoLoop stofF hdl cur rest).1, (demoLoop stofF hdl cur rest).2)
        else ([], DemoExit.crashed)

/-- JOST_MCLS1.cpp lines 34 to 96, the entry point _tmain at the level of
calls into the MCLS1 API.  atoiF, atofF and stofF are the CRT parse
functions; openRes is the handle the vendor open call yields for COM3;
argv is the full argument vector including the program name; input is
the stream of console tokens.  Channel and current come from argv when
argc is 3, else the defaults 3 and 50.0.  After init and List the demo
opens the hardcoded port COM3 and returns at once when the handle is
negative; otherwise SetChannel runs (aborting when the channel assert
fails), then the loop with initial token the empty string. -/
def tmain (env : LoadEnv) (openRes : Int) (atoiF : String → Int) (atofF : String → ℚ)
    (stofF : String → Option ℚ) (argv : List String) (input : List String) :
    List ApiEv × DemoExit :=
  if (init_MCLS1 env).1 ≠ 0 then ([], DemoExit.initFailed)
  else
    if openRes < 0 then ([ApiEv.listEv, ApiEv.openEv "COM3"], DemoExit.openFailed)
    else
      if (if argv.length = 3 then atoiF (argv.getD 1 "") else 3) ≥ 1 ∧
          (if argv.length = 3 then atoiF (argv.getD 1 "") else 3) ≤ 4 then
        ([ApiEv.listEv, ApiEv.openEv "COM3",
          ApiEv.setActiveChannelEv (if argv.length = 3 then atoiF (argv.getD 1 "") else 3),
          ApiEv.setEnableEv 1] ++
          (demoLoop stofF openRes (if argv.length = 3 then atofF (argv.getD 2 "") else 50)
            ("" :: input)).1,
          (demoLoop stofF openRes (if argv.length = 3 then atofF (argv.getD 2 "") else 50)
            ("" :: input)).2)
      else ([ApiEv.listEv, ApiEv.openEv "COM3"], DemoExit.crashed)

/-- Whether an event is an open call. -/
def isOpenEv : ApiEv → Bool
  | ApiEv.openEv _ => true
  | _ => false

/-- Whether an event is a set active channel call. -/
def isSetChanEv : ApiEv → Bool
  | ApiEv.setActiveChannelEv _ => true
  | _ => false

/-- A trivial concrete vendor over the unit state, used to instantiate
the universally quantified theorems at concrete inputs. -/
def V0 : Vendor Unit where
  openFn := fun s _ _ _ => (s, 7)
  listFn := fun s _ => (s, "COM3,COM7", 2)
  closeFn := fun s _ => (s, 0)
  setFn := fun s _ _ _ => (s, 0)
  getFn := fun s _ _ => (s, "channel?\r3", 0)

/-- The float value 2 to the power 100, exactly representable in IEEE
single precision, whose %f conversion has 38 characters. -/
def bigCurrent : ℚ := 1267650600228229401496703205376

lemma pad6_length (n : Nat) : (pad6 n).length = 6 := rfl

lemma natRepr_le_two : ∀ m : Nat, m < 31 → (toString m).length ≤ 2 := by decide

lemma rnd6_bounds (q : ℚ) (h1 : 20 ≤ q) (h2 : q ≤ 30) :
    20000000 ≤ rnd6 q ∧ rnd6 q ≤ 30000000 := by
  have hdenQ : (0 : ℚ) < (q.den : ℚ) := by exact_mod_cast q.den_pos
  have hnum1 : 20 * (q.den : ℤ) ≤ q.num := by
    rw [← Rat.num_div_den q, le_div_iff₀ hdenQ] at h1
    exact_mod_cast h1
  have hnum2 : q.num ≤ 30 * (q.den : ℤ) := by
    rw [← Rat.num_div_den q, div_le_iff₀ hdenQ] at h2
    exact_mod_cast h2
  have hd : (0 : ℤ) < (q.den : ℤ) := by exact_mod_cast q.den_pos
  unfold rnd6
  set a : ℤ := q.num * 1000000 with ha
  set d : ℤ := (q.den : ℤ) with hdd
  have hA1 : 20000000 * d ≤ a := by rw [ha]; linarith
  have hA2 : a ≤ 30000000 * d := by rw [ha]; linarith
  have hq1 : 20000000 ≤ a / d := by rw [Int.le_ediv_iff_mul_le hd]; exact hA1
  have hq2 : a / d ≤ 30000000 := by
    have h3 := Int.ediv_le_ediv hd hA2
    rwa [Int.mul_ediv_cancel _ (ne_of_gt hd)] at h3
  have hmod : 0 ≤ a % d := Int.emod_nonneg a (ne_of_gt hd)
  have hlt : a % d < d := Int.emod_lt_of_pos a hd
  have heq : d * (a / d) + a % d = a := Int.ediv_add_emod a d
  have hstep : d < 2 * (a % d) ∨ (¬ (2 * (a % d) < d) ∧ ¬ (d < 2 * (a % d))) →
      a / d + 1 ≤ 30000000 := by
    intro hcase
    have hr : 1 ≤ a % d := by omega
    have hdn : d * (a / d) < d * 30000000 := by linarith
    have h4 := (mul_lt_mul_left hd).mp hdn
    omega
  split_ifs with hb1 hb2 hb3
  · exact ⟨hq1, hq2⟩
  · exact ⟨by omega, hstep (Or.inl hb2)⟩
  · exact ⟨hq1, hq2⟩
  · exact ⟨by omega, hstep (Or.inr ⟨hb1, hb2⟩)⟩

lemma fmtF_len_target (q : ℚ) (h1 : 20 ≤ q) (h2 : q ≤ 30) : (fmtF q).length ≤ 9 := by
  have h0 : ¬ q < 0 := not_lt.mpr (le_trans (by norm_num) h1)
  rw [fmtF, if_neg h0, fmtNat6]
  obtain ⟨hlo, hhi⟩ := rnd6_bounds q h1 h2
  have hlen : (toString ((rnd6 q).toNat / 1000000)).length ≤ 2 := natRepr_le_two _ (by omega)
  have hp : (pad6 ((rnd6 q).toNat % 1000000)).length = 6 := pad6_length _
  rw [String.length_append, String.length_append, hp]
  have hdot : (".").length = 1 := rfl
  omega

lemma chanCmd_fits (n : Int) (h1 : 1 ≤ n) (h2 : n ≤ 4) :
    ("channel=" ++ toString n ++ "\r").length + 1 ≤ WRITE_BUFFER_SIZE := by
  interval_cases n <;> decide

lemma enableCmd_fits (n : Int) (h1 : 0 ≤ n) (h2 : n ≤ 1) :
    ("enable=" ++ toString n ++ "\r").length + 1 ≤ WRITE_BUFFER_SIZE := by
  interval_cases n <;> decide

lemma systemCmd_fits (n : Int) (h1 : 0 ≤ n) (h2 : n ≤ 1) :
    ("system=" ++ toString n ++ "\r").length + 1 ≤ WRITE_BUFFER_SIZE := by
  interval_cases n <;> decide

lemma targetCmd_fits (q : ℚ) (h1 : TEMP_LO ≤ q) (h2 : q ≤ TEMP_HI) :
    ("target=" ++ fmtF q ++ "\r").length + 1 ≤ WRITE_BUFFER_SIZE := by
  have hf : (fmtF q).length ≤ 9 := by
    refine fmtF_len_target q ?_ ?_
    · simpa [TEMP_LO] using h1
    · simpa [TEMP_HI] using h2
  rw [String.length_append, String.length_append]
  have h7 : ("target=").length = 7 := rfl
  have hr : ("\r").length = 1 := rfl
  unfold WRITE_BUFFER_SIZE
  omega

lemma currentCmd_fits_of (q : ℚ) (h : (fmtF q).length ≤ 22) :
    ("current=" ++ fmtF q ++ "\r").length + 1 ≤ WRITE_BUFFER_SIZE := by
  rw [String.length_append, String.length_append]
  have h8 : ("current=").length = 8 := rfl
  have hr : ("\r").length = 1 := rfl
  unfold WRITE_BUFFER_SIZE
  omega

lemma setChan_eq {S : Type} (V : Vendor S) (s : S) (hdl n : Int) (h1 : 1 ≤ n) (h2 : n ≤ 4) :
    fnMCLS1_DLL_SetActiveChannel V s hdl n =
      some ((V.setFn s hdl ("channel=" ++ toString n ++ "\r") WRITE_BUFFER_SIZE).1,
        [VendorCall.setC hdl ("channel=" ++ toString n ++ "\r") WRITE_BUFFER_SIZE],
        (V.setFn s hdl ("channel=" ++ toString n ++ "\r") WRITE_BUFFER_SIZE).2) := by
  unfold fnMCLS1_DLL_SetActiveChannel sprintf_s
  rw [if_pos ⟨h1, h2⟩, if_pos (chanCmd_fits n h1 h2)]

lemma setChan_none {S : Type} (V : Vendor S) (s : S) (hdl n : Int) (h : ¬ (1 ≤ n ∧ n ≤ 4)) :
    fnMCLS1_DLL_SetActiveChannel V s hdl n = none := by
  unfold fnMCLS1_DLL_SetActiveChannel
  rw [if_neg h]

lemma setTemp_eq {S : Type} (V : Vendor S) (s : S) (hdl : Int) (q : ℚ)
    (h1 : TEMP_LO ≤ q) (h2 : q ≤ TEMP_HI) :
    fnMCLS1_DLL_SetTargeTemperature V s hdl q =
      some ((V.setFn s hdl ("target=" ++ fmtF q ++ "\r") WRITE_BUFFER_SIZE).1,
        [VendorCall.setC hdl ("target=" ++ fmtF q ++ "\r") WRITE_BUFFER_SIZE],
        (V.setFn s hdl ("target=" ++ fmtF q ++ "\r") WRITE_BUFFER_SIZE).2) := by
  unfold fnMCLS1_DLL_SetTargeTemperature sprintf_s
  rw [if_pos ⟨h1, h2⟩, if_pos (targetCmd_fits q h1 h2)]

lemma setTemp_none {S : Type} (V : Vendor S) (s : S) (hdl : Int) (q : ℚ)
    (h : ¬ (TEMP_LO ≤ q ∧ q ≤ TEMP_HI)) :
    fnMCLS1_DLL_SetTargeTemperature V s hdl q = none := by
  unfold fnMCLS1_DLL_SetTargeTemperature
  rw [if_neg h]

lemma setCur_eq {S : Type} (V : Vendor S) (s : S) (hdl : Int) (q : ℚ)
    (h : ("current=" ++ fmtF q ++ "\r").length + 1 ≤ WRITE_BUFFER_SIZE) :
    fnMCLS1_DLL_SetCurrent V s hdl q =
      some ((V.setFn s hdl ("current=" ++ fmtF q ++ "\r") WRITE_BUFFER_SIZE).1,
        [VendorCall.setC hdl ("current=" ++ fmtF q ++ "\r") WRITE_BUFFER_SIZE],
        (V.setFn s hdl ("current=" ++ fmtF q ++ "\r") WRITE_BUFFER_SIZE).2) := by
  unfold fnMCLS1_DLL_SetCurrent sprintf_s
  rw [if_pos h]

lemma setCur_none {S : Type} (V : Vendor S) (s : S) (hdl : Int) (q : ℚ)
    (h : ¬ (("current=" ++ fmtF q ++ "\r").length + 1 ≤ WRITE_BUFFER_SIZE)) :
    fnMCLS1_DLL_SetCurrent V s hdl q = none := by
  unfold fnMCLS1_DLL_SetCurrent sprintf_s
  rw [if_neg h]

lemma setEn_eq {S : Type} (V : Vendor S) (s : S) (hdl n : Int) (h1 : 0 ≤ n) (h2 : n ≤ 1) :
    fnMCLS1_DLL_SetEnable V s hdl n =
      some ((V.setFn s hdl ("enable=" ++ toString n ++ "\r") WRITE_BUFFER_SIZE).1,
        [VendorCall.setC hdl ("enable=" ++ toString n ++ "\r") WRITE_BUFFER_SIZE],
        (V.setFn s hdl ("enable=" ++ toString n ++ "\r") WRITE_BUFFER_SIZE).2) := by
  unfold fnMCLS1_DLL_SetEnable sprintf_s
  rw [if_pos ⟨h1, h2⟩, if_pos (enableCmd_fits n h1 h2)]

lemma setEn_none {S : Type} (V : Vendor S) (s : S) (hdl n : Int) (h : ¬ (0 ≤ n ∧ n ≤ 1)) :
    fnMCLS1_DLL_SetEnable V s hdl n = none := by
  unfold fnMCLS1_DLL_SetEnable
  rw [if_neg h]

lemma setSys_eq {S : Type} (V : Vendor S) (s : S) (hdl n : Int) (h1 : 0 ≤ n) (h2 : n ≤ 1) :
    fnMCLS1_DLL_SetSystemEnable V s hdl n =
      some ((V.setFn s hdl ("system=" ++ toString n ++ "\r") WRITE_BUFFER_SIZE).1,
        [VendorCall.setC hdl ("system=" ++ toString n ++ "\r") WRITE_BUFFER_SIZE],
        (V.setFn s hdl ("system=" ++ toString n ++ "\r") WRITE_BUFFER_SIZE).2) := by
  unfold fnMCLS1_DLL_SetSystemEnable sprintf_s
  rw [if_pos ⟨h1, h2⟩, if_pos (systemCmd_fits n h1 h2)]

lemma setSys_none {S : Type} (V : Vendor S) (s : S) (hdl n : Int) (h : ¬ (0 ≤ n ∧ n ≤ 1)) :
    fnMCLS1_DLL_SetSystemEnable V s hdl n = none := by
  unfold fnMCLS1_DLL_SetSystemEnable
  rw [if_neg h]

lemma demoLoop_finished (stofF : String → Option ℚ) (hdl : Int) :
    ∀ (l : List String) (cur : ℚ), currentCmdFits cur = true →
      ((demoLoop stofF hdl cur l).2 = DemoExit.finished ↔ reachesQuit stofF l = true) := by
  intro l
  induction l with
  | nil => intro cur h; simp [demoLoop, reachesQuit]
  | cons t rest ih =>
    intro cur h
    by_cases hq : t ∈ quitWords
    · simp [demoLoop, reachesQuit, hq]
    · by_cases ht : t = ""
      · subst ht
        simpa [demoLoop, reachesQuit, hq, h] using ih cur h
      · cases hs : stofF t with
        | none => simp [demoLoop, reachesQuit, hq, ht, hs]
        | some v =>
          by_cases hf : currentCmdFits v
          · simpa [demoLoop, reachesQuit, hq, ht, hs, hf] using ih v hf
          · simp [demoLoop, reachesQuit, hq, ht, hs, hf]

lemma demoLoop_suffix (stofF : String → Option ℚ) (hdl : Int) :
    ∀ (l : List String) (cur : ℚ),
      (demoLoop stofF hdl cur l).2 = DemoExit.finished →
      ∃ pre, (demoLoop stofF hdl cur l).1 =
        pre ++ [ApiEv.setEnableEv 0, ApiEv.closeEv hdl] := by
  intro l
  induction l with
  | nil => intro cur h; simp [demoLoop] at h
  | cons t rest ih =>
    intro cur h
    by_cases hq : t ∈ quitWords
    · exact ⟨[], by simp [demoLoop, hq]⟩
    · cases hs : (if t = "" then some cur else stofF t) with
      | none => simp [demoLoop, hq, hs] at h
      | some v =>
        by_cases hf : currentCmdFits v
        · simp only [demoLoop, if_neg hq, hs, if_pos hf] at h
          obtain ⟨pre, hp⟩ := ih v h
          refine ⟨ApiEv.setCurrentEv v :: ApiEv.setCurrentEv v :: pre, ?_⟩
          simp [demoLoop, hq, hs, hf, hp]
        · simp [demoLoop, hq, hs, hf] at h

lemma demoLoop_filter (stofF : String → Option ℚ) (hdl : Int) (p : ApiEv → Bool)
    (h1 : ∀ q : ℚ, p (ApiEv.setCurrentEv q) = false)
    (h2 : p (ApiEv.setEnableEv 0) = false)
    (h3 : p (ApiEv.closeEv hdl) = false) :
    ∀ (l : List String) (cur : ℚ), ((demoLoop stofF hdl cur l).1).filter p = [] := by
  intro l
  induction l with
  | nil => intro cur; simp [demoLoop]
  | cons t rest ih =>
    intro cur
    by_cases hq : t ∈ quitWords
    · simp [demoLoop, hq, List.filter, h2, h3]
    · cases hs : (if t = "" then some cur else stofF t) with
      | none => simp [demoLoop, hq, hs]
      | some v =>
        by_cases hf : currentCmdFits v
        · simp [demoLoop, hq, hs, hf, List.filter, h1, ih v]
        · simp [demoLoop, hq, hs, hf]

/-- Claim C2: every getter passes its fixed query string of the shape
name, question mark, CR to the vendor get function exactly once, scans
the reply with its fixed sscanf format (literal echoed query prefix, the
CR matching as whitespace, then a scanset conversion bounded by MAXLEN
extracting the value characters into c), and returns the vendor status
code unchanged whether or not the scan matched. -/
theorem claim_C2 : ∀ (S : Type) (V : Vendor S) (s : S) (hdl limit : Int),
    (fnMCLS1_DLL_GetActiveChannel V s hdl limit =
      ((V.getFn s hdl "channel?\r").1, [VendorCall.getC hdl "channel?\r"],
        sscanf_query "channel?" digitClass MAXLEN (V.getFn s hdl "channel?\r").2.1,
        (V.getFn s hdl "channel?\r").2.2)) ∧
    (fnMCLS1_DLL_GetTargetTemperature V s hdl limit =
      ((V.getFn s hdl "target?\r").1, [VendorCall.getC hdl "target?\r"],
        sscanf_query "target?" numClass MAXLEN (V.getFn s hdl "target?\r").2.1,
        (V.getFn s hdl "target?\r").2.2)) ∧
    (fnMCLS1_DLL_GetActualTemperature V s hdl limit =
      ((V.getFn s hdl "temp?\r").1, [VendorCall.getC hdl "temp?\r"],
        sscanf_query "temp?" numClass MAXLEN (V.getFn s hdl "temp?\r").2.1,
        (V.getFn s hdl "temp?\r").2.2)) ∧
    (fnMCLS1_DLL_GetActualCurrent V s hdl limit =
      ((V.getFn s hdl "current?\r").1, [VendorCall.getC hdl "current?\r"],
        sscanf_query "current?" numClass MAXLEN (V.getFn s hdl "current?\r").2.1,
        (V.getFn s hdl "current?\r").2.2)) ∧
    (fnMCLS1_DLL_GetActualPower V s hdl limit =
      ((V.getFn s hdl "power?\r").1, [VendorCall.getC hdl "power?\r"],
        sscanf_query "power?" numClass MAXLEN (V.getFn s hdl "power?\r").2.1,
        (V.getFn s hdl "power?\r").2.2)) ∧
    (fnMCLS1_DLL_GetSystemEnable V s hdl limit =
      ((V.getFn s hdl "system?\r").1, [VendorCall.getC hdl "system?\r"],
        sscanf_query "system?" digitClass MAXLEN (V.getFn s hdl "system?\r").2.1,
        (V.getFn s hdl "system?\r").2.2)) ∧
    (fnMCLS1_DLL_GetEnable V s hdl limit =
      ((V.getFn s hdl "enable?\r").1, [VendorCall.getC hdl "enable?\r"],
        sscanf_query "enable?" digitClass MAXLEN (V.getFn s hdl "enable?\r").2.1,
        (V.getFn s hdl "enable?\r").2.2)) ∧
    (fnMCLS1_DLL_GetStatus V s hdl limit =
      ((V.getFn s hdl "statword?\r").1, [VendorCall.getC hdl "statword?\r"],
        sscanf_query "statword?" digitClass MAXLEN (V.getFn s hdl "statword?\r").2.1,
        (V.getFn s hdl "statword?\r").2.2)) ∧
    (fnMCLS1_DLL_GetID V s hdl limit =
      ((V.getFn s hdl "id?\r").1, [VendorCall.getC hdl "id?\r"],
        sscanf_query "id?" idClass MAXLEN (V.getFn s hdl "id?\r").2.1,
        (V.getFn s hdl "id?\r").2.2)) :=
  fun _ _ _ _ _ => ⟨rfl, rfl, rfl, rfl, rfl, rfl, rfl, rfl, rfl⟩

/-- Witness for C2 at the trivial vendor: the reply channel question CR 3
is scanned into the digit string 3 and the status 0 passes through. -/
theorem claim_C2_witness :
    fnMCLS1_DLL_GetActiveChannel V0 () 1 0 =
      ((), [VendorCall.getC 1 "channel?\r"], some "3", 0) :=
  (claim_C2 Unit V0 () 1 0).1.trans (by decide)

/-- Claim C7: init_MCLS1 loads the vendor DLL, resolves exactly the five
exported names fnUART_LIBRARY_open, list, close, Set, Get, and returns -1
when the DLL does not load (resolving nothing), -2 when it loads but some
symbol is missing, and 0 exactly when all five resolve. -/
theorem claim_C7 : ∀ env : LoadEnv,
    (env.dllLoads = false → init_MCLS1 env = (-1, [])) ∧
    ((init_MCLS1 env).1 = -1 ↔ env.dllLoads = false) ∧
    ((init_MCLS1 env).1 = -2 ↔
      env.dllLoads = true ∧ uartSymbolNames.all env.getProcAddress = false) ∧
    ((init_MCLS1 env).1 = 0 ↔
      env.dllLoads = true ∧ uartSymbolNames.all env.getProcAddress = true) ∧
    (env.dllLoads = true → (init_MCLS1 env).2 = uartSymbolNames) ∧
    uartSymbolNames = ["fnUART_LIBRARY_open", "fnUART_LIBRARY_list",
      "fnUART_LIBRARY_close", "fnUART_LIBRARY_Set", "fnUART_LIBRARY_Get"] := by
  intro env
  obtain ⟨loads, gp⟩ := env
  cases loads <;> by_cases h : uartSymbolNames.all gp <;>
    simp [init_MCLS1, h] <;> decide

/-- Witness for C7: with a loading DLL resolving every name the result
is 0 and all five names were queried. -/
theorem claim_C7_witness :
    init_MCLS1 ⟨true, fun _ => true⟩ = (-1, []) ∨
      (init_MCLS1 ⟨true, fun _ => true⟩).1 = 0 :=
  Or.inr ((claim_C7 ⟨true, fun _ => true⟩).2.2.2.1.mpr ⟨rfl, by decide⟩)

/-- Claim C8: the limit parameter of every getter has no effect on the
result (state, calls, bytes written into c, status): every getter ignores
it and passes the fixed constant MAXLEN, 255, as the sscanf_s buffer
size. -/
theorem claim_C8 : MAXLEN = 255 ∧
    ∀ (S : Type) (V : Vendor S) (s : S) (hdl l1 l2 : Int),
    fnMCLS1_DLL_GetActiveChannel V s hdl l1 = fnMCLS1_DLL_GetActiveChannel V s hdl l2 ∧
    fnMCLS1_DLL_GetTargetTemperature V s hdl l1 = fnMCLS1_DLL_GetTargetTemperature V s hdl l2 ∧
    fnMCLS1_DLL_GetActualTemperature V s hdl l1 = fnMCLS1_DLL_GetActualTemperature V s hdl l2 ∧
    fnMCLS1_DLL_GetActualCurrent V s hdl l1 = fnMCLS1_DLL_GetActualCurrent V s hdl l2 ∧
    fnMCLS1_DLL_GetActualPower V s hdl l1 = fnMCLS1_DLL_GetActualPower V s hdl l2 ∧
    fnMCLS1_DLL_GetSystemEnable V s hdl l1 = fnMCLS1_DLL_GetSystemEnable V s hdl l2 ∧
    fnMCLS1_DLL_GetEnable V s hdl l1 = fnMCLS1_DLL_GetEnable V s hdl l2 ∧
    fnMCLS1_DLL_GetStatus V s hdl l1 = fnMCLS1_DLL_GetStatus V s hdl l2 ∧
    fnMCLS1_DLL_GetID V s hdl l1 = fnMCLS1_DLL_GetID V s hdl l2 :=
  ⟨rfl, fun _ _ _ _ _ _ => ⟨rfl, rfl, rfl, rfl, rfl, rfl, rfl, rfl, rfl⟩⟩

/-- Witness for C8: two calls with limits 0 and 9999 agree at the trivial
vendor. -/
theorem claim_C8_witness :
    fnMCLS1_DLL_GetID V0 () 2 0 = fnMCLS1_DLL_GetID V0 () 2 9999 :=
  (claim_C8.2 Unit V0 () 2 0 9999).2.2.2.2.2.2.2.2

/-- Claim C1 (amended): each setter formats its fixed template with its
one value argument, passes exactly that string to the vendor set function
once, and returns that call status; for SetActiveChannel on 1 to 4 (with
SetActiveChannel of 3 producing the string channel equals 3 CR), for
SetTargeTemperature on 20 to 30, for SetEnable and SetSystemEnable on 0
and 1, and for SetCurrent on every argument whose formatted command fits
the 32 byte command buffer.  The fit proviso for SetCurrent is forced by
the counterexample: at the float 2 to the 100 the %f expansion makes the
command 48 bytes, sprintf_s aborts and no vendor call happens. -/
theorem claim_C1 :
    (∀ (S : Type) (V : Vendor S) (s : S) (hdl n : Int), 1 ≤ n → n ≤ 4 →
      fnMCLS1_DLL_SetActiveChannel V s hdl n =
        some ((V.setFn s hdl ("channel=" ++ toString n ++ "\r") WRITE_BUFFER_SIZE).1,
          [VendorCall.setC hdl ("channel=" ++ toString n ++ "\r") WRITE_BUFFER_SIZE],
          (V.setFn s hdl ("channel=" ++ toString n ++ "\r") WRITE_BUFFER_SIZE).2)) ∧
    ("channel=" ++ toString (3 : Int) ++ "\r" = "channel=3\r") ∧
    (∀ (S : Type) (V : Vendor S) (s : S) (hdl : Int) (q : ℚ), TEMP_LO ≤ q → q ≤ TEMP_HI →
      fnMCLS1_DLL_SetTargeTemperature V s hdl q =
        some ((V.setFn s hdl ("target=" ++ fmtF q ++ "\r") WRITE_BUFFER_SIZE).1,
          [VendorCall.setC hdl ("target=" ++ fmtF q ++ "\r") WRITE_BUFFER_SIZE],
          (V.setFn s hdl ("target=" ++ fmtF q ++ "\r") WRITE_BUFFER_SIZE).2)) ∧
    (∀ (S : Type) (V : Vendor S) (s : S) (hdl : Int) (q : ℚ),
      ("current=" ++ fmtF q ++ "\r").length + 1 ≤ WRITE_BUFFER_SIZE →
      fnMCLS1_DLL_SetCurrent V s hdl q =
        some ((V.setFn s hdl ("current=" ++ fmtF q ++ "\r") WRITE_BUFFER_SIZE).1,
          [VendorCall.setC hdl ("current=" ++ fmtF q ++ "\r") WRITE_BUFFER_SIZE],
          (V.setFn s hdl ("current=" ++ fmtF q ++ "\r") WRITE_BUFFER_SIZE).2)) ∧
    (∀ (S : Type) (V : Vendor S) (s : S) (hdl n : Int), 0 ≤ n → n ≤ 1 →
      fnMCLS1_DLL_SetEnable V s hdl n =
        some ((V.setFn s hdl ("enable=" ++ toString n ++ "\r") WRITE_BUFFER_SIZE).1,
          [VendorCall.setC hdl ("enable=" ++ toString n ++ "\r") WRITE_BUFFER_SIZE],
          (V.setFn s hdl ("enable=" ++ toString n ++ "\r") WRITE_BUFFER_SIZE).2)) ∧
    (∀ (S : Type) (V : Vendor S) (s : S) (hdl n : Int), 0 ≤ n → n ≤ 1 →
      fnMCLS1_DLL_SetSystemEnable V s hdl n =
        some ((V.setFn s hdl ("system=" ++ toString n ++ "\r") WRITE_BUFFER_SIZE).1,
          [VendorCall.setC hdl ("system=" ++ toString n ++ "\r") WRITE_BUFFER_SIZE],
          (V.setFn s hdl ("system=" ++ toString n ++ "\r") WRITE_BUFFER_SIZE).2)) :=
  ⟨fun _ V s hdl n h1 h2 => setChan_eq V s hdl n h1 h2,
    by decide,
    fun _ V s hdl q h1 h2 => setTemp_eq V s hdl q h1 h2,
    fun _ V s hdl q h => setCur_eq V s hdl q h,
    fun _ V s hdl n h1 h2 => setEn_eq V s hdl n h1 h2,
    fun _ V s hdl n h1 h2 => setSys_eq V s hdl n h1 h2⟩

/-- Counterexample to C1 as stated: at the float value 2 to the 100 the
fnMCLS1_DLL_SetCurrent wrapper aborts in sprintf_s, makes no vendor set
call and returns no status. -/
theorem claim_C1_counterexample :
    fnMCLS1_DLL_SetCurrent V0 () 0 bigCurrent = none := by decide

/-- Witness for C1: SetActiveChannel of 3 at the trivial vendor sends
exactly channel equals 3 CR and returns the vendor status 0. -/
theorem claim_C1_witness :
    fnMCLS1_DLL_SetActiveChannel V0 () 0 3 =
      some ((), [VendorCall.setC 0 "channel=3\r" WRITE_BUFFER_SIZE], 0) :=
  (claim_C1.1 Unit V0 () 0 3 (by decide) (by decide)).trans (by decide)

/-- Claim C4: the range limits are enforced as assertions: a setter call
completes exactly when its assert holds, namely 1 to 4 for the channel,
TEMP_LO 20 to TEMP_HI 30 for the target temperature, 0 or 1 for the two
enables; SetCurrent has no range check and completes for every value
whose command fits the buffer. -/
theorem claim_C4 :
    (∀ (S : Type) (V : Vendor S) (s : S) (hdl n : Int),
      (fnMCLS1_DLL_SetActiveChannel V s hdl n).isSome ↔ (1 ≤ n ∧ n ≤ 4)) ∧
    (∀ (S : Type) (V : Vendor S) (s : S) (hdl : Int) (q : ℚ),
      (fnMCLS1_DLL_SetTargeTemperature V s hdl q).isSome ↔ (TEMP_LO ≤ q ∧ q ≤ TEMP_HI)) ∧
    TEMP_LO = 20 ∧ TEMP_HI = 30 ∧
    (∀ (S : Type) (V : Vendor S) (s : S) (hdl n : Int),
      (fnMCLS1_DLL_SetEnable V s hdl n).isSome ↔ (n = 0 ∨ n = 1)) ∧
    (∀ (S : Type) (V : Vendor S) (s : S) (hdl n : Int),
      (fnMCLS1_DLL_SetSystemEnable V s hdl n).isSome ↔ (n = 0 ∨ n = 1)) ∧
    (∀ (S : Type) (V : Vendor S) (s : S) (hdl : Int) (q : ℚ),
      ("current=" ++ fmtF q ++ "\r").length + 1 ≤ WRITE_BUFFER_SIZE →
      (fnMCLS1_DLL_SetCurrent V s hdl q).isSome) := by
  refine ⟨?_, ?_, rfl, rfl, ?_, ?_, ?_⟩
  · intro S V s hdl n
    constructor
    · intro h
      by_contra hc
      rw [setChan_none V s hdl n hc] at h
      simp at h
    · rintro ⟨h1, h2⟩
      rw [setChan_eq V s hdl n h1 h2]
      rfl
  · intro S V s hdl q
    constructor
    · intro h
      by_contra hc
      rw [setTemp_none V s hdl q hc] at h
      simp at h
    · rintro ⟨h1, h2⟩
      rw [setTemp_eq V s hdl q h1 h2]
      rfl
  · intro S V s hdl n
    constructor
    · intro h
      by_contra hc
      have hc2 : ¬ (0 ≤ n ∧ n ≤ 1) := by omega
      rw [setEn_none V s hdl n hc2] at h
      simp at h
    · intro hc
      rw [setEn_eq V s hdl n (by omega) (by omega)]
      rfl
  · intro S V s hdl n
    constructor
    · intro h
      by_contra hc
      have hc2 : ¬ (0 ≤ n ∧ n ≤ 1) := by omega
      rw [setSys_none V s hdl n hc2] at h
      simp at h
    · intro hc
      rw [setSys_eq V s hdl n (by omega) (by omega)]
      rfl
  · intro S V s hdl q h
    rw [setCur_eq V s hdl q h]
    rfl

/-- Witness for C4: channel 3 lies in 1 to 4 and the call completes. -/
theorem claim_C4_witness :
    (1 ≤ (3 : Int) ∧ (3 : Int) ≤ 4) ∧
      (fnMCLS1_DLL_SetActiveChannel V0 () 0 3).isSome = true :=
  ⟨by decide, (claim_C4.1 Unit V0 () 0 3).mpr (by decide)⟩

/-- Claim C5 (amended): response buffers are 255 bytes and command
buffers 32 bytes; the formatted command with CR and NUL fits the 32 byte
buffer for SetActiveChannel on its asserted range, for the two enables on
0 and 1, for SetTargeTemperature on its asserted range, and for
SetCurrent exactly for arguments whose %f expansion is short enough (at
most 22 characters); the counterexample shows a float argument of
SetCurrent whose command does not fit. -/
theorem claim_C5 :
    MAXLEN = 255 ∧ WRITE_BUFFER_SIZE = 32 ∧
    (∀ n : Int, 1 ≤ n → n ≤ 4 →
      ("channel=" ++ toString n ++ "\r").length + 1 ≤ WRITE_BUFFER_SIZE) ∧
    (∀ n : Int, 0 ≤ n → n ≤ 1 →
      ("enable=" ++ toString n ++ "\r").length + 1 ≤ WRITE_BUFFER_SIZE) ∧
    (∀ n : Int, 0 ≤ n → n ≤ 1 →
      ("system=" ++ toString n ++ "\r").length + 1 ≤ WRITE_BUFFER_SIZE) ∧
    (∀ q : ℚ, TEMP_LO ≤ q → q ≤ TEMP_HI →
      ("target=" ++ fmtF q ++ "\r").length + 1 ≤ WRITE_BUFFER_SIZE) ∧
    (∀ q : ℚ, (fmtF q).length ≤ 22 →
      ("current=" ++ fmtF q ++ "\r").length + 1 ≤ WRITE_BUFFER_SIZE) :=
  ⟨rfl, rfl, chanCmd_fits, enableCmd_fits, systemCmd_fits, targetCmd_fits,
    currentCmd_fits_of⟩

/-- Counterexample to C5 as stated: for the float 2 to the 100 the
formatted current command has 47 characters and does not fit the 32 byte
command buffer with its NUL. -/
theorem claim_C5_counterexample :
    ¬ (("current=" ++ fmtF bigCurrent ++ "\r").length + 1 ≤ WRITE_BUFFER_SIZE) := by
  decide

/-- Witness for C5: the channel 2 command fits the command buffer. -/
theorem claim_C5_witness :
    ("channel=" ++ toString (2 : Int) ++ "\r").length + 1 ≤ WRITE_BUFFER_SIZE :=
  claim_C5.2.2.1 2 (by decide) (by decide)

/-- Claim C3: every wrapper invokes its vendor function exactly once and
returns the vendor status code unchanged, with no retry, recovery or
translation: List, Open and Close unconditionally; each setter whenever
its call completes (its trace is then the one set call and its result is
that call status); each getter unconditionally. -/
theorem claim_C3 :
    (∀ (S : Type) (V : Vendor S) (s : S) (var : Int),
      (fnMCLS1_DLL_List V s var).2.1 = [VendorCall.listC MAXLEN] ∧
      (fnMCLS1_DLL_List V s var).2.2.2 = (V.listFn s MAXLEN).2.2) ∧
    (∀ (S : Type) (V : Vendor S) (s : S) (port : String),
      (fnMCLS1_DLL_Open V s port).2.1 = [VendorCall.openC port CBR_115200 3] ∧
      (fnMCLS1_DLL_Open V s port).2.2 = (V.openFn s port CBR_115200 3).2) ∧
    (∀ (S : Type) (V : Vendor S) (s : S) (hdl : Int),
      (fnMCLS1_DLL_Close V s hdl).2.1 = [VendorCall.closeC hdl] ∧
      (fnMCLS1_DLL_Close V s hdl).2.2 = (V.closeFn s hdl).2) ∧
    (∀ (S : Type) (V : Vendor S) (s : S) (hdl n : Int),
      (fnMCLS1_DLL_SetActiveChannel V s hdl n).isSome →
      fnMCLS1_DLL_SetActiveChannel V s hdl n =
        some ((V.setFn s hdl ("channel=" ++ toString n ++ "\r") WRITE_BUFFER_SIZE).1,
          [VendorCall.setC hdl ("channel=" ++ toString n ++ "\r") WRITE_BUFFER_SIZE],
          (V.setFn s hdl ("channel=" ++ toString n ++ "\r") WRITE_BUFFER_SIZE).2)) ∧
    (∀ (S : Type) (V : Vendor S) (s : S) (hdl : Int) (q : ℚ),
      (fnMCLS1_DLL_SetTargeTemperature V s hdl q).isSome →
      fnMCLS1_DLL_SetTargeTemperature V s hdl q =
        some ((V.setFn s hdl ("target=" ++ fmtF q ++ "\r") WRITE_BUFFER_SIZE).1,
          [VendorCall.setC hdl ("target=" ++ fmtF q ++ "\r") WRITE_BUFFER_SIZE],
          (V.setFn s hdl ("target=" ++ fmtF q ++ "\r") WRITE_BUFFER_SIZE).2)) ∧
    (∀ (S : Type) (V : Vendor S) (s : S) (hdl : Int) (q : ℚ),
      (fnMCLS1_DLL_SetCurrent V s hdl q).isSome →
      fnMCLS1_DLL_SetCurrent V s hdl q =
        some ((V.setFn s hdl ("current=" ++ fmtF q ++ "\r") WRITE_BUFFER_SIZE).1,
          [VendorCall.setC hdl ("current=" ++ fmtF q ++ "\r") WRITE_BUFFER_SIZE],
          (V.setFn s hdl ("current=" ++ fmtF q ++ "\r") WRITE_BUFFER_SIZE).2)) ∧
    (∀ (S : Type) (V : Vendor S) (s : S) (hdl n : Int),
      (fnMCLS1_DLL_SetEnable V s hdl n).isSome →
      fnMCLS1_DLL_SetEnable V s hdl n =
        some ((V.setFn s hdl ("enable=" ++ toString n ++ "\r") WRITE_BUFFER_SIZE).1,
          [VendorCall.setC hdl ("enable=" ++ toString n ++ "\r") WRITE_BUFFER_SIZE],
          (V.setFn s hdl ("enable=" ++ toString n ++ "\r") WRITE_BUFFER_SIZE).2)) ∧
    (∀ (S : Type) (V : Vendor S) (s : S) (hdl n : Int),
      (fnMCLS1_DLL_SetSystemEnable V s hdl n).isSome →
      fnMCLS1_DLL_SetSystemEnable V s hdl n =
        some ((V.setFn s hdl ("system=" ++ toString n ++ "\r") WRITE_BUFFER_SIZE).1,
          [VendorCall.setC hdl ("system=" ++ toString n ++ "\r") WRITE_BUFFER_SIZE],
          (V.setFn s hdl ("system=" ++ toString n ++ "\r") WRITE_BUFFER_SIZE).2)) ∧
    (∀ (S : Type) (V : Vendor S) (s : S) (hdl limit : Int),
      ((fnMCLS1_DLL_GetActiveChannel V s hdl limit).2.1 = [VendorCall.getC hdl "channel?\r"] ∧
        (fnMCLS1_DLL_GetActiveChannel V s hdl limit).2.2.2 = (V.getFn s hdl "channel?\r").2.2) ∧
      ((fnMCLS1_DLL_GetTargetTemperature V s hdl limit).2.1 = [VendorCall.getC hdl "target?\r"] ∧
        (fnMCLS1_DLL_GetTargetTemperature V s hdl limit).2.2.2 = (V.getFn s hdl "target?\r").2.2) ∧
      ((fnMCLS1_DLL_GetActualTemperature V s hdl limit).2.1 = [VendorCall.getC hdl "temp?\r"] ∧
        (fnMCLS1_DLL_GetActualTemperature V s hdl limit).2.2.2 = (V.getFn s hdl "temp?\r").2.2) ∧
      ((fnMCLS1_DLL_GetActualCurrent V s hdl limit).2.1 = [VendorCall.getC hdl "current?\r"] ∧
        (fnMCLS1_DLL_GetActualCurrent V s hdl limit).2.2.2 = (V.getFn s hdl "current?\r").2.2) ∧
      ((fnMCLS1_DLL_GetActualPower V s hdl limit).2.1 = [VendorCall.getC hdl "power?\r"] ∧
        (fnMCLS1_DLL_GetActualPower V s hdl limit).2.2.2 = (V.getFn s hdl "power?\r").2.2) ∧
      ((fnMCLS1_DLL_GetSystemEnable V s hdl limit).2.1 = [VendorCall.getC hdl "system?\r"] ∧
        (fnMCLS1_DLL_GetSystemEnable V s hdl limit).2.2.2 = (V.getFn s hdl "system?\r").2.2) ∧
      ((fnMCLS1_DLL_GetEnable V s hdl limit).2.1 = [VendorCall.getC hdl "enable?\r"] ∧
        (fnMCLS1_DLL_GetEnable V s hdl limit).2.2.2 = (V.getFn s hdl "enable?\r").2.2) ∧
      ((fnMCLS1_DLL_GetStatus V s hdl limit).2.1 = [VendorCall.getC hdl "statword?\r"] ∧
        (fnMCLS1_DLL_GetStatus V s hdl limit).2.2.2 = (V.getFn s hdl "statword?\r").2.2) ∧
      ((fnMCLS1_DLL_GetID V s hdl limit).2.1 = [VendorCall.getC hdl "id?\r"] ∧
        (fnMCLS1_DLL_GetID V s hdl limit).2.2.2 = (V.getFn s hdl "id?\r").2.2)) := by
  refine ⟨fun _ _ _ _ => ⟨rfl, rfl⟩, fun _ _ _ _ => ⟨rfl, rfl⟩, fun _ _ _ _ => ⟨rfl, rfl⟩,
    ?_, ?_, ?_, ?_, ?_,
    fun _ _ _ _ _ => ⟨⟨rfl, rfl⟩, ⟨rfl, rfl⟩, ⟨rfl, rfl⟩, ⟨rfl, rfl⟩, ⟨rfl, rfl⟩,
      ⟨rfl, rfl⟩, ⟨rfl, rfl⟩, ⟨rfl, rfl⟩, ⟨rfl, rfl⟩⟩⟩
  · intro S V s hdl n h
    by_cases hc : 1 ≤ n ∧ n ≤ 4
    · exact setChan_eq V s hdl n hc.1 hc.2
    · rw [setChan_none V s hdl n hc] at h
      simp at h
  · intro S V s hdl q h
    by_cases hc : TEMP_LO ≤ q ∧ q ≤ TEMP_HI
    · exact setTemp_eq V s hdl q hc.1 hc.2
    · rw [setTemp_none V s hdl q hc] at h
      simp at h
  · intro S V s hdl q h
    by_cases hc : ("current=" ++ fmtF q ++ "\r").length + 1 ≤ WRITE_BUFFER_SIZE
    · exact setCur_eq V s hdl q hc
    · rw [setCur_none V s hdl q hc] at h
      simp at h
  · intro S V s hdl n h
    by_cases hc : 0 ≤ n ∧ n ≤ 1
    · exact setEn_eq V s hdl n hc.1 hc.2
    · rw [setEn_none V s hdl n hc] at h
      simp at h
  · intro S V s hdl n h
    by_cases hc : 0 ≤ n ∧ n ≤ 1
    · exact setSys_eq V s hdl n hc.1 hc.2
    · rw [setSys_none V s hdl n hc] at h
      simp at h

/-- Witness for C3: the completed SetEnable call at the trivial vendor is
exactly one vendor set call whose status 0 is returned unchanged. -/
theorem claim_C3_witness :
    fnMCLS1_DLL_SetEnable V0 () 0 1 =
      some ((), [VendorCall.setC 0 "enable=1\r" WRITE_BUFFER_SIZE], 0) :=
  (claim_C3.2.2.2.2.2.2.1 Unit V0 () 0 1 (by decide)).trans (by decide)

/-- Claim C9: fnMCLS1_DLL_List ignores its var parameter, passes the
fixed 255 byte scratch size to the vendor list function, copies into port
only the characters of the reply preceding the first comma (the leading
comma free run, when nonempty and short enough for the buffer), and
returns the vendor count unchanged. -/
theorem claim_C9 :
    (∀ (S : Type) (V : Vendor S) (s : S) (v1 v2 : Int),
      fnMCLS1_DLL_List V s v1 = fnMCLS1_DLL_List V s v2) ∧
    (∀ (S : Type) (V : Vendor S) (s : S) (var : Int),
      fnMCLS1_DLL_List V s var =
        ((V.listFn s MAXLEN).1, [VendorCall.listC MAXLEN],
          scanSet commaFree MAXLEN (V.listFn s MAXLEN).2.1,
          (V.listFn s MAXLEN).2.2)) ∧
    (∀ reply : String, reply.data.takeWhile commaFree ≠ [] →
      (reply.data.takeWhile commaFree).length < MAXLEN →
      scanSet commaFree MAXLEN reply = some (String.mk (reply.data.takeWhile commaFree))) := by
  refine ⟨fun _ _ _ _ _ => rfl, fun _ _ _ _ => rfl, ?_⟩
  intro reply h1 h2
  rw [scanSet, if_neg h1, if_neg (by omega)]

/-- Witness for C9: the reply COM3 comma COM7 yields exactly the first
entry COM3. -/
theorem claim_C9_witness :
    scanSet commaFree MAXLEN "COM3,COM7" = some "COM3" :=
  (claim_C9.2.2 "COM3,COM7" (by decide) (by decide)).trans (by decide)

/-- Claim C10: the demo helper SetCurrent sends the identical current
command to the vendor twice and returns only the second call status (the
first status never appears in the result); the helper SetChannel discards
the SetActiveChannel status and returns the status of the following
SetEnable with value 1. -/
theorem claim_C10 :
    (∀ (S : Type) (V : Vendor S) (s : S) (hdl : Int) (cur : ℚ),
      ("current=" ++ fmtF cur ++ "\r").length + 1 ≤ WRITE_BUFFER_SIZE →
      SetCurrent V s hdl cur =
        some ((V.setFn (V.setFn s hdl ("current=" ++ fmtF cur ++ "\r") WRITE_BUFFER_SIZE).1
            hdl ("current=" ++ fmtF cur ++ "\r") WRITE_BUFFER_SIZE).1,
          [VendorCall.setC hdl ("current=" ++ fmtF cur ++ "\r") WRITE_BUFFER_SIZE,
            VendorCall.setC hdl ("current=" ++ fmtF cur ++ "\r") WRITE_BUFFER_SIZE],
          (V.setFn (V.setFn s hdl ("current=" ++ fmtF cur ++ "\r") WRITE_BUFFER_SIZE).1
            hdl ("current=" ++ fmtF cur ++ "\r") WRITE_BUFFER_SIZE).2)) ∧
    (∀ (S : Type) (V : Vendor S) (s : S) (hdl ch : Int), 1 ≤ ch → ch ≤ 4 →
      SetChannel V s hdl ch =
        some ((V.setFn (V.setFn s hdl ("channel=" ++ toString ch ++ "\r") WRITE_BUFFER_SIZE).1
            hdl "enable=1\r" WRITE_BUFFER_SIZE).1,
          [VendorCall.setC hdl ("channel=" ++ toString ch ++ "\r") WRITE_BUFFER_SIZE,
            VendorCall.setC hdl "enable=1\r" WRITE_BUFFER_SIZE],
          (V.setFn (V.setFn s hdl ("channel=" ++ toString ch ++ "\r") WRITE_BUFFER_SIZE).1
            hdl "enable=1\r" WRITE_BUFFER_SIZE).2)) := by
  constructor
  · intro S V s hdl cur h
    have e1 := setCur_eq V s hdl cur h
    have e2 := setCur_eq V
      (V.setFn s hdl ("current=" ++ fmtF cur ++ "\r") WRITE_BUFFER_SIZE).1 hdl cur h
    simp only [SetCurrent, e1]
    simp only [e2]
    rfl
  · intro S V s hdl ch h1 h2
    have e1 := setChan_eq V s hdl ch h1 h2
    have e2 := setEn_eq V
      (V.setFn s hdl ("channel=" ++ toString ch ++ "\r") WRITE_BUFFER_SIZE).1 hdl 1
      (by omega) (by omega)
    simp only [SetChannel, e1]
    simp only [e2]
    rfl

/-- Witness for C10: SetCurrent at 50 mA sends current equals 50.000000
CR twice at the trivial vendor and returns the second status 0. -/
theorem claim_C10_witness :
    SetCurrent V0 () 0 50 =
      some ((), [VendorCall.setC 0 "current=50.000000\r" WRITE_BUFFER_SIZE,
        VendorCall.setC 0 "current=50.000000\r" WRITE_BUFFER_SIZE], 0) :=
  (claim_C10.1 Unit V0 () 0 50 (by decide)).trans (by decide)

/-- Claim C6: the CLI demo opens the hardcoded port COM3 regardless of
the listed ports, sets the active channel exactly once and enables it,
then repeatedly sets the current from the console input; the loop
completes exactly when the token stream reaches quit, Quit or QUIT
(every earlier token parsing to a usable current), after which the demo
disables the active channel with SetEnable 0 and closes the handle; when
opening fails (negative handle) it returns after List and Open with no
set and no close call. -/
theorem claim_C6 :
    ∀ (env : LoadEnv) (openRes : Int) (atoiF : String → Int) (atofF : String → ℚ)
      (stofF : String → Option ℚ) (argv input : List String) (channel : Int) (current : ℚ),
      channel = (if argv.length = 3 then atoiF (argv.getD 1 "") else 3) →
      current = (if argv.length = 3 then atofF (argv.getD 2 "") else 50) →
      ((init_MCLS1 env).1 = 0 → openRes < 0 →
        tmain env openRes atoiF atofF stofF argv input =
          ([ApiEv.listEv, ApiEv.openEv "COM3"], DemoExit.openFailed)) ∧
      ((init_MCLS1 env).1 = 0 → 0 ≤ openRes → 1 ≤ channel → channel ≤ 4 →
        currentCmdFits current = true →
        (∃ rest, (tmain env openRes atoiF atofF stofF argv input).1 =
          ApiEv.listEv :: ApiEv.openEv "COM3" :: ApiEv.setActiveChannelEv channel ::
          ApiEv.setEnableEv 1 :: ApiEv.setCurrentEv current ::
          ApiEv.setCurrentEv current :: rest) ∧
        ((tmain env openRes atoiF atofF stofF argv input).2 = DemoExit.finished ↔
          reachesQuit stofF input = true) ∧
        ((tmain env openRes atoiF atofF stofF argv input).2 = DemoExit.finished →
          ∃ pre, (tmain env openRes atoiF atofF stofF argv input).1 =
            pre ++ [ApiEv.setEnableEv 0, ApiEv.closeEv openRes]) ∧
        ((tmain env openRes atoiF atofF stofF argv input).1.filter isOpenEv =
          [ApiEv.openEv "COM3"]) ∧
        ((tmain env openRes atoiF atofF stofF argv input).1.filter isSetChanEv =
          [ApiEv.setActiveChannelEv channel])) := by
  intro env openRes atoiF atofF stofF argv input channel current hch hcur
  constructor
  · intro hinit hopen
    unfold tmain
    rw [if_neg (by simp [hinit]), if_pos hopen]
  · intro hinit hopen h1 h4 hfit
    have hnot : ¬ ((init_MCLS1 env).1 ≠ 0) := by simp [hinit]
    have hno : ¬ (openRes < 0) := not_lt.mpr hopen
    have hguard : (if argv.length = 3 then atoiF (argv.getD 1 "") else 3) ≥ 1 ∧
        (if argv.length = 3 then atoiF (argv.getD 1 "") else 3) ≤ 4 := by
      rw [← hch]
      exact ⟨h1, h4⟩
    have htm : tmain env openRes atoiF atofF stofF argv input =
        ([ApiEv.listEv, ApiEv.openEv "COM3", ApiEv.setActiveChannelEv channel,
          ApiEv.setEnableEv 1] ++ (demoLoop stofF openRes current ("" :: input)).1,
          (demoLoop stofF openRes current ("" :: input)).2) := by
      unfold tmain
      rw [if_neg hnot, if_neg hno, if_pos hguard, ← hch, ← hcur]
    have hq0 : ("" : String) ∉ quitWords := by decide
    have hloop1 : (demoLoop stofF openRes current ("" :: input)).1 =
        ApiEv.setCurrentEv current :: ApiEv.setCurrentEv current ::
          (demoLoop stofF openRes current input).1 := by
      simp [demoLoop, hq0, hfit]
    have hloop2 : (demoLoop stofF openRes current ("" :: input)).2 =
        (demoLoop stofF openRes current input).2 := by
      simp [demoLoop, hq0, hfit]
    refine ⟨?_, ?_, ?_, ?_, ?_⟩
    · refine ⟨(demoLoop stofF openRes current input).1, ?_⟩
      rw [htm]
      simp [hloop1]
    · rw [htm]
      dsimp only
      rw [hloop2]
      exact demoLoop_finished stofF openRes input current hfit
    · intro hfin
      rw [htm] at hfin ⊢
      dsimp only at hfin ⊢
      obtain ⟨pre, hp⟩ := demoLoop_suffix stofF openRes ("" :: input) current hfin
      refine ⟨[ApiEv.listEv, ApiEv.openEv "COM3", ApiEv.setActiveChannelEv channel,
        ApiEv.setEnableEv 1] ++ pre, ?_⟩
      rw [hp]
      simp
    · rw [htm]
      dsimp only
      rw [List.filter_append]
      rw [demoLoop_filter stofF openRes isOpenEv (fun _ => rfl) rfl rfl ("" :: input) current]
      simp [isOpenEv, List.filter]
    · rw [htm]
      dsimp only
      rw [List.filter_append]
      rw [demoLoop_filter stofF openRes isSetChanEv (fun _ => rfl) rfl rfl ("" :: input) current]
      simp [isSetChanEv, List.filter]

/-- Witness for C6: with a resolving DLL, handle 5, no arguments and the
input stream 40, quit, the demo finishes. -/
theorem claim_C6_witness :
    (tmain ⟨true, fun _ => true⟩ 5 (fun _ => 0) (fun _ => 0)
      (fun t => if t = "40" then some 40 else none) [] ["40", "quit"]).2 =
      DemoExit.finished :=
  ((claim_C6 ⟨true, fun _ => true⟩ 5 (fun _ => 0) (fun _ => 0)
      (fun t => if t = "40" then some 40 else none) [] ["40", "quit"] 3 50 (by decide)
      (by decide)).2 (by decide) (by decide) (by decide) (by decide)
      (by decide)).2.1.mpr (by decide)
